import Mathlib

/-!
Verification of the duckdq data-quality engine core against its specification.

Shallow embedding of the Python sources under `src/duckdq/`:
* `core/properties.py`  — property catalog, equality, hashing, preconditions
* `core/metrics.py`     — metric values
* `core/states.py`      — state variants
* `core/preconditions.py` — precondition requirement kinds
* `engines/state_engine.py` — the state merge algebra and metric re-derivation
* `engines/sql/sql_operators.py` — per-property SQL operators
* `engines/sql/sql_engine.py`    — the aggregation planner / SQL engine
* `engines/pandas/pandas_engine.py` — the sketch engine entry points
* `utils/analysis_runner.py`     — the precondition check and run driver
* `checks.py` / `constraints.py` — check evaluation

Python floats are modelled as `ℚ` (exact arithmetic idealization), Python ints
as `Int`/`Nat`, raised exceptions as `Except PyErr`.  The external
collaborators (DuckDB executing a SQL string, the datasketches KLL/HLL
library, `math.sqrt`) are parameters of the embedding; everything the
repository itself computes is translated directly from the source.
-/

set_option maxRecDepth 100000

deriving instance DecidableEq for Except

namespace DuckDQ

/-- Python exception values that the embedded code can raise.  Each constructor
is one Python exception class; the string payload is its message (for
`AttributeError`/`NameError`/`KeyError` the offending name). -/
inductive PyErr where
  | attributeError (attr : String)
  | indexError
  | keyError (key : String)
  | nameError (name : String)
  | typeError (msg : String)
  | notImplementedError (msg : String)
  | stateMergingException (msg : String)
  | preconditionNotMet (msg : String)
  | unsupportedProperty (msg : String)
  | unknownOperatorType (msg : String)
  | assertionError (msg : String)
  deriving DecidableEq, Repr

/-- `core/metrics.py` `Entity` enum. -/
inductive Entity where
  | DATASET
  | COLUMN
  | TWOCOLUMN
  | MULTICOLUMN
  deriving DecidableEq, Repr

/-- `entity.name` as used in `Property.__hash__` (the Python enum member name). -/
def Entity.pyName : Entity → String
  | .DATASET => "DATASET"
  | .COLUMN => "COLUMN"
  | .TWOCOLUMN => "TWOCOLUMN"
  | .MULTICOLUMN => "MULTICOLUMN"

/-- The closed property catalog of `core/properties.py`: one constructor per
concrete `Property` subclass, carrying the subtype-specific constructor
arguments.  `HistogramProperty.binningUDF`/`maxBins` and `Quantile.quantile`
only ever enter the embedding through their interpolated string form in
`instance`, so they are carried as strings. -/
inductive PropertyKind where
  | schema
  | size
  | histogram (column binningUDF maxBins : String)
  | approxDistinctness (column : String)
  | completeness (column : String)
  | uniqueness (columns : List String)
  | distinctness (columns : List String)
  | uniqueValueRatio (columns : List String)
  | compliance (name expression : String)
  | patternMatch (column pattern : String)
  | entropy (column : String)
  | quantile (column : String) (q : String)
  | maxLength (column : String)
  | minLength (column : String)
  | minimum (column : String)
  | maximum (column : String)
  | mean (column : String)
  | sum (column : String)
  | standardDeviation (column : String)
  | correlation (columnA columnB : String)
  | kllSketch (column parameters : String)
  deriving DecidableEq, Repr

/-- A constructed property value: its subclass data plus the optional `where`
filter every constructor threads through to the `Property` base class. -/
structure Property where
  kind : PropertyKind
  whereF : Option String := none
  deriving DecidableEq, Repr

/-- `self.name = self.__class__.__name__` set in `Property.__init__`. -/
def Property.name (p : Property) : String :=
  match p.kind with
  | .schema => "Schema"
  | .size => "Size"
  | .histogram .. => "HistogramProperty"
  | .approxDistinctness _ => "ApproxDistinctness"
  | .completeness _ => "Completeness"
  | .uniqueness _ => "Uniqueness"
  | .distinctness _ => "Distinctness"
  | .uniqueValueRatio _ => "UniqueValueRatio"
  | .compliance .. => "Compliance"
  | .patternMatch .. => "PatternMatch"
  | .entropy _ => "Entropy"
  | .quantile .. => "Quantile"
  | .maxLength _ => "MaxLength"
  | .minLength _ => "MinLength"
  | .minimum _ => "Minimum"
  | .maximum _ => "Maximum"
  | .mean _ => "Mean"
  | .sum _ => "Sum"
  | .standardDeviation _ => "StandardDeviation"
  | .correlation .. => "Correlation"
  | .kllSketch .. => "KllSketch"

/-- The `instance` attribute as assigned by each subclass constructor
(`core/properties.py`): the column name, `"*"` for `Size`, `""` for `Schema`,
the `_`-joined column list for multi-column properties, or the
subtype-specific composite. -/
def Property.inst (p : Property) : String :=
  match p.kind with
  | .schema => ""
  | .size => "*"
  | .histogram c udf bins => c ++ "_" ++ udf ++ "_" ++ bins
  | .approxDistinctness c => c
  | .completeness c => c
  | .uniqueness cs => String.intercalate "_" cs
  | .distinctness cs => String.intercalate "_" cs
  | .uniqueValueRatio cs => String.intercalate "_" cs
  | .compliance n _ => n
  | .patternMatch c pat => c ++ "_" ++ pat
  | .entropy c => c
  | .quantile c q => c ++ "_" ++ q
  | .maxLength c => c
  | .minLength c => c
  | .minimum c => c
  | .maximum c => c
  | .mean c => c
  | .sum c => c
  | .standardDeviation c => c
  | .correlation a b => a ++ "_" ++ b
  | .kllSketch c pars => c ++ "_" ++ pars

/-- The `entity` attribute: which base class (`DatasetProperty`,
`SingleColumnProperty`, `TwoColumnProperty`, `MultiColumnProperty`) the
subclass constructor goes through. -/
def Property.entity (p : Property) : Entity :=
  match p.kind with
  | .schema => .DATASET
  | .size => .DATASET
  | .compliance .. => .DATASET
  | .uniqueness _ => .MULTICOLUMN
  | .distinctness _ => .MULTICOLUMN
  | .uniqueValueRatio _ => .MULTICOLUMN
  | .correlation .. => .TWOCOLUMN
  | _ => .COLUMN

/-- `Property.__eq__` translated verbatim from `core/properties.py` lines
26-33.  Note the source compares `self.name == self.name` (not
`other.name`), so the class tag never participates in the comparison. -/
def Property.pyEq (p q : Property) : Bool :=
  (p.name == p.name) && (p.inst == q.inst) && (p.entity == q.entity)
    && (p.whereF == q.whereF)

/-- The identity relation the specification states: the `(name, instance,
entity, where)` 4-tuples match. -/
def Property.specEq (p q : Property) : Bool :=
  (p.name == q.name) && (p.inst == q.inst) && (p.entity == q.entity)
    && (p.whereF == q.whereF)

/-! ## SHA-1

`Property.__hash__` feeds `name + instance + entity.name + (where or '')`
through `hashlib.sha1` and reduces the hex digest, read as an integer, modulo
`10 ** 16`.  We implement SHA-1 (FIPS 180) over byte lists so the hash is a
closed computable function. -/

/-- 32-bit left rotation. -/
def rotl32 (n x : Nat) : Nat :=
  ((x <<< n) ||| (x >>> (32 - n))) % 2 ^ 32

/-- SHA-1 round function `f_t`. -/
def sha1F (t b c d : Nat) : Nat :=
  if t < 20 then (b &&& c) ||| ((b ^^^ (2 ^ 32 - 1)) &&& d)
  else if t < 40 then b ^^^ c ^^^ d
  else if t < 60 then (b &&& c) ||| (b &&& d) ||| (c &&& d)
  else b ^^^ c ^^^ d

/-- SHA-1 round constant `K_t`. -/
def sha1K (t : Nat) : Nat :=
  if t < 20 then 0x5A827999
  else if t < 40 then 0x6ED9EBA1
  else if t < 60 then 0x8F1BBCDC
  else 0xCA62C1D6

/-- `k` big-endian bytes of `n`. -/
def beBytes (k n : Nat) : List Nat :=
  (List.range k).map fun i => (n >>> (8 * (k - 1 - i))) % 256

/-- Big-endian 32-bit words from a list of bytes (length a multiple of 4). -/
def beWords : List Nat → List Nat
  | b0 :: b1 :: b2 :: b3 :: rest =>
      (((b0 * 256 + b1) * 256 + b2) * 256 + b3) :: beWords rest
  | _ => []

/-- List lookup with default 0, used for the SHA-1 message schedule. -/
def nth (l : List Nat) (i : Nat) : Nat := l.getD i 0

/-- Merkle–Damgård padding: append `0x80`, zeros to 56 mod 64, then the
64-bit big-endian bit length. -/
def sha1Pad (msg : List Nat) : List Nat :=
  let L := msg.length
  let zeros := (119 - L % 64) % 64
  msg ++ [0x80] ++ List.replicate zeros 0 ++ beBytes 8 (8 * L)

/-- Process one 64-byte chunk, updating the five 32-bit state words. -/
def sha1Chunk (h : Nat × Nat × Nat × Nat × Nat) (chunk : List Nat) :
    Nat × Nat × Nat × Nat × Nat :=
  let w16 := beWords chunk
  let w := (List.range 64).foldl (fun w i =>
    w ++ [rotl32 1 (nth w (i + 13) ^^^ nth w (i + 8) ^^^ nth w (i + 2) ^^^ nth w i)]) w16
  let (h0, h1, h2, h3, h4) := h
  let (a, b, c, d, e) := (List.range 80).foldl
    (fun (st : Nat × Nat × Nat × Nat × Nat) t =>
      let (a, b, c, d, e) := st
      let temp := (rotl32 5 a + sha1F t b c d + e + sha1K t + nth w t) % 2 ^ 32
      (temp, a, rotl32 30 b, c, d))
    (h0, h1, h2, h3, h4)
  ((h0 + a) % 2 ^ 32, (h1 + b) % 2 ^ 32, (h2 + c) % 2 ^ 32,
   (h3 + d) % 2 ^ 32, (h4 + e) % 2 ^ 32)

/-- Split into 64-byte chunks (fuel-indexed to make termination structural). -/
def chunks64Go : Nat → List Nat → List (List Nat)
  | 0, _ => []
  | _ + 1, [] => []
  | fuel + 1, l => l.take 64 :: chunks64Go fuel (l.drop 64)

def chunks64 (l : List Nat) : List (List Nat) :=
  chunks64Go (l.length + 1) l

/-- The 160-bit SHA-1 digest of a byte list, as the natural number a hex-digest
string denotes (`int(hexdigest, 16)`). -/
def sha1 (msg : List Nat) : Nat :=
  let init := (0x67452301, 0xEFCDAB89, 0x98BADCFE, 0x10325476, 0xC3D2E1F0)
  let (h0, h1, h2, h3, h4) := (chunks64 (sha1Pad msg)).foldl sha1Chunk init
  (((h0 * 2 ^ 32 + h1) * 2 ^ 32 + h2) * 2 ^ 32 + h3) * 2 ^ 32 + h4

/-- UTF-8 bytes of a string.  Every string hashed by the program here is ASCII,
where the UTF-8 encoding is the code-point sequence itself. -/
def asciiBytes (s : String) : List Nat :=
  s.data.map Char.toNat

/-- FIPS 180 test vector, anchoring the SHA-1 implementation. -/
theorem sha1_abc :
    sha1 (asciiBytes "abc") = 0xa9993e364706816aba3e25717850c26c9cd0d89d := by
  decide

/-- The string `Property.__hash__` serializes:
`self.name + self.instance + self.entity.name + ('' if self.where is None else self.where)`. -/
def Property.hashStr (p : Property) : String :=
  p.name ++ p.inst ++ p.entity.pyName ++ (p.whereF.getD "")

/-- `Property.__hash__`: `int(hashlib.sha1(s.encode("utf-8")).hexdigest(), 16) % (10 ** 16)`. -/
def Property.pyHash (p : Property) : Nat :=
  sha1 (asciiBytes p.hashStr) % 10 ^ 16

/-- `Property.property_identifier`: `ctypes.c_size_t(self.__hash__()).value`,
i.e. reduction of the hash modulo `2 ** 64` (64-bit platform). -/
def Property.propertyIdentifier (p : Property) : Nat :=
  p.pyHash % 2 ^ 64

/-- The hash the specification describes instead: the first 64 bits of the
SHA-1 digest, over the pipe-separated serialization `(name|instance|entity|where)`
the spec names in its design notes. -/
def Property.specHash64 (p : Property) : Nat :=
  sha1 (asciiBytes (p.name ++ "|" ++ p.inst ++ "|" ++ p.entity.pyName ++ "|"
    ++ (p.whereF.getD ""))) >>> 96

/-- The first 64 bits of SHA-1 over the serialization the code actually uses
(plain concatenation), to compare against `pyHash` as well. -/
def Property.concatHash64 (p : Property) : Nat :=
  sha1 (asciiBytes p.hashStr) >>> 96

/-- Anchor: `Property.pyHash` on `Size()` agrees with CPython
`int(hashlib.sha1(b"Size*DATASET").hexdigest(), 16) % 10**16`. -/
theorem pyHash_size_matches_cpython :
    Property.pyHash ⟨.size, none⟩ = 8449706330965537 := by
  decide

/-- C1.  The claim states `p == q` holds iff the `(name, instance, entity,
where)` 4-tuples match, and in particular that two properties of different
kinds over the same instance/entity/where are unequal.  The source
(`core/properties.py` line 29) compares `self.name == self.name`, so
`Minimum("c") == Maximum("c")` evaluates to `True` even though the names
differ; the two objects moreover have different `__hash__` values, violating
Python's own eq/hash contract — the comparison is a slip for
`self.name == other.name`. -/
theorem property_pyEq_ignores_name_bug :
    Property.pyEq ⟨.minimum "c", none⟩ ⟨.maximum "c", none⟩ = true
      ∧ Property.name ⟨.minimum "c", none⟩ ≠ Property.name ⟨.maximum "c", none⟩
      ∧ Property.specEq ⟨.minimum "c", none⟩ ⟨.maximum "c", none⟩ = false
      ∧ Property.pyHash ⟨.minimum "c", none⟩ ≠ Property.pyHash ⟨.maximum "c", none⟩ := by
  refine ⟨by decide, by decide, by decide, by decide⟩

/-- C8 counterexample.  The claim states the property hash is the first 64
bits of SHA-1 over a canonical serialization of the 4-tuple.  For `Size()`
the code's hash differs both from the first 64 bits of SHA-1 over the
pipe-separated serialization the spec names and from the first 64 bits over
the code's own concatenated serialization: the code reduces the full digest
modulo `10 ** 16` instead of truncating to 64 bits. -/
theorem property_hash_not_first64_sha1 :
    Property.pyHash ⟨.size, none⟩ ≠ Property.specHash64 ⟨.size, none⟩
      ∧ Property.pyHash ⟨.size, none⟩ ≠ Property.concatHash64 ⟨.size, none⟩ := by
  refine ⟨by decide, by decide⟩

/-- C8 (amended).  The hash is the full SHA-1 digest of the UTF-8
concatenation `name + instance + entity.name + (where or '')`, reduced
modulo `10 ** 16` (so it is under 54 bits, not a 64-bit digest), it is a
function of the `(name, instance, entity, where)` 4-tuple alone, and
`property_identifier()` — the `c_size_t` (mod `2 ** 64`) reduction of the
hash — equals the hash unchanged. -/
theorem property_identifier_eq_pyHash (p : Property) :
    p.propertyIdentifier = p.pyHash ∧ p.pyHash < 10 ^ 16
      ∧ ∀ q : Property, p.name = q.name → p.inst = q.inst →
          p.entity = q.entity → p.whereF = q.whereF → p.pyHash = q.pyHash := by
  have hlt : p.pyHash < 10 ^ 16 := Nat.mod_lt _ (by norm_num)
  refine ⟨?_, hlt, ?_⟩
  · exact Nat.mod_eq_of_lt (lt_of_lt_of_le hlt (by norm_num))
  · intro q hn hi he hw
    unfold Property.pyHash Property.hashStr
    rw [hn, hi, he, hw]

/-- Witness for `property_identifier_eq_pyHash` at `Size()`. -/
theorem property_identifier_eq_pyHash_witness :
    Property.propertyIdentifier ⟨.size, none⟩ = Property.pyHash ⟨.size, none⟩
      ∧ Property.pyHash ⟨.size, none⟩ = Property.pyHash ⟨.size, none⟩ :=
  ⟨(property_identifier_eq_pyHash ⟨.size, none⟩).1,
   (property_identifier_eq_pyHash ⟨.size, none⟩).2.2 ⟨.size, none⟩ rfl rfl rfl rfl⟩

/-! ## Preconditions (`core/preconditions.py`) -/

/-- The precondition requirement kinds. -/
inductive Precondition where
  | hasColumn (column : String)
  | isNumeric (column : String)
  | isString (column : String)
  | atLeastOne (columns : List String)
  deriving DecidableEq, Repr

/-- `additional_preconditions`: the base returns `[]`
(`core/properties.py` lines 20-21); only `MaxLength` and `MinLength`
override it, each returning `[is_string(self.column)]` (lines 183-184 and
191-192). -/
def Property.additionalPreconditions (p : Property) : List Precondition :=
  match p.kind with
  | .maxLength c => [.isString c]
  | .minLength c => [.isString c]
  | _ => []

/-- `preconditions()`: the `Property` base returns `[]`, and every concrete
subclass goes through one of the four category classes
(`DatasetProperty`/`SingleColumnProperty`/`TwoColumnProperty`/`MultiColumnProperty`),
all of which return `self.additional_preconditions() + super().preconditions()`. -/
def Property.preconditions (p : Property) : List Precondition :=
  p.additionalPreconditions ++ []

/-- C10.  `preconditions()` is empty for every property kind except
`MinLength`/`MaxLength`, which declare exactly one `IsString` requirement on
their column; consequently every declared precondition of every property is
an `IsString`, and no property ever declares `HasColumn`, `IsNumeric` or
`AtLeastOne`. -/
theorem preconditions_only_isString (p : Property) :
    (match p.kind with
      | .minLength c => p.preconditions = [.isString c]
      | .maxLength c => p.preconditions = [.isString c]
      | _ => p.preconditions = [])
      ∧ ∀ c ∈ p.preconditions, ∃ col, c = .isString col := by
  obtain ⟨k, w⟩ := p
  cases k <;> simp [Property.preconditions, Property.additionalPreconditions]

/-- Witness for `preconditions_only_isString` at `MinLength("c")` and
`Size()`. -/
theorem preconditions_only_isString_witness :
    Property.preconditions ⟨.minLength "c", none⟩ = [.isString "c"]
      ∧ Property.preconditions ⟨.size, none⟩ = []
      ∧ ∃ col, (Precondition.isString "c") = .isString col :=
  ⟨(preconditions_only_isString ⟨.minLength "c", none⟩).1,
   (preconditions_only_isString ⟨.size, none⟩).1,
   (preconditions_only_isString ⟨.minLength "c", none⟩).2 (.isString "c")
     (by simp [Property.preconditions, Property.additionalPreconditions])⟩

/-! ## Metrics (`core/metrics.py`, `utils/metrics_helper.py`) -/

/-- The value carried by a metric: a float (ℚ here) or the schema mapping. -/
inductive MetricVal where
  | double (v : ℚ)
  | schemaMap (m : List (String × String))
  deriving DecidableEq, Repr

/-- `tryingsnake` `Try_`: a successful value or a captured exception. -/
inductive TryVal where
  | success (v : MetricVal)
  | failure (e : PyErr)
  deriving DecidableEq, Repr

/-- `Metric` from `core/metrics.py`.  `isSchema` distinguishes the
`SchemaMetric` subclass from `DoubleMetric`. -/
structure Metric where
  entity : Entity
  name : String
  inst : String
  value : TryVal
  isSchema : Bool
  deriving DecidableEq, Repr

/-- `metric_from_value`: floats/ints become a `DoubleMetric` with
`Success(value)`, dicts a `SchemaMetric`. -/
def metricFromValue (v : MetricVal) (name inst : String) (entity : Entity) : Metric :=
  match v with
  | .double _ => ⟨entity, name, inst, .success v, false⟩
  | .schemaMap _ => ⟨entity, name, inst, .success v, true⟩

/-- `metric_type()` returns `SchemaMetric` only for the `Schema` property. -/
def Property.metricTypeIsSchema (p : Property) : Bool :=
  match p.kind with
  | .schema => true
  | _ => false

/-- `metric_from_failure(ex, analyzer)`: a metric of the analyzer's metric
type carrying `Failure(ex)`. -/
def metricFromFailure (ex : PyErr) (p : Property) : Metric :=
  ⟨p.entity, p.name, p.inst, .failure ex, p.metricTypeIsSchema⟩

/-! ## States (`core/states.py`) -/

/-- The state variants.  `id` is the property identifier the state is keyed
by.  Sketch-backed states carry the hex-serialized sketch bytes as a string,
exactly as the dataclasses do. -/
inductive State where
  | schemaState (id : Nat) (schema : List (String × String))
  | maxState (id : Nat) (maxValue : ℚ)
  | meanState (id : Nat) (total : ℚ) (count : Int)
  | minState (id : Nat) (minValue : ℚ)
  | numMatches (id : Nat) (numMatches : Int)
  | numMatchesAndCount (id : Nat) (numMatches count : Int)
  | quantileState (id : Nat) (serializedKll : String) (quantile : ℚ) (sketchType : String)
  | approxDistinctState (id : Nat) (serializedHll : String) (estimate : ℚ) (numRows : Int)
  | standardDeviationState (id : Nat) (n avg m2 stddev : ℚ)
  | sumState (id : Nat) (sumValue : ℚ)
  | frequenciesAndNumRows (id : Nat) (frequenciesTable : String)
      (groupingColumns : List String) (numRows : Int)
  deriving DecidableEq, Repr

/-! ## State merge algebra (`engines/state_engine.py`, `__merge_states`)

The datasketches KLL/HLL library and `math.sqrt` are external collaborators;
the merge function is parametrized over them.  `K`/`H` are the in-memory
sketch types; the state only ever stores their hex serializations. -/

/-- The external datasketches primitives used by `__merge_states` and the
sketch engine.  `kllDeser` takes the `sketch_type` tag first because the
code picks `kll_floats_sketch` or `kll_ints_sketch` from it. -/
structure SketchLib (K H : Type) where
  kllDeser : String → String → K
  kllMerge : K → K → K
  kllSer : K → String
  kllGetQuantile : K → String → ℚ
  hllDeser : String → H
  hllUpdate : H → H → H
  hllEstimate : H → ℚ
  hllSerUpd : H → String

/-- Attribute reads performed inside the merge loops; a state of the wrong
variant raises `AttributeError` in Python. -/
def State.attrMaxValue : State → Except PyErr ℚ
  | .maxState _ v => .ok v
  | _ => .error (.attributeError "max_value")

def State.attrMinValue : State → Except PyErr ℚ
  | .minState _ v => .ok v
  | _ => .error (.attributeError "min_value")

def State.attrSumValue : State → Except PyErr ℚ
  | .sumState _ v => .ok v
  | _ => .error (.attributeError "sum_value")

def State.attrTotalCount : State → Except PyErr (ℚ × Int)
  | .meanState _ t c => .ok (t, c)
  | _ => .error (.attributeError "total")

def State.attrNumMatches : State → Except PyErr Int
  | .numMatches _ n => .ok n
  | _ => .error (.attributeError "num_matches")

def State.attrNumMatchesCount : State → Except PyErr (Int × Int)
  | .numMatchesAndCount _ n c => .ok (n, c)
  | _ => .error (.attributeError "num_matches")

def State.attrSerializedKll : State → Except PyErr String
  | .quantileState _ s _ _ => .ok s
  | _ => .error (.attributeError "serializedKll")

def State.attrHllAndRows : State → Except PyErr (String × Int)
  | .approxDistinctState _ s _ r => .ok (s, r)
  | _ => .error (.attributeError "serializedHll")

def State.attrStddevFields : State → Except PyErr (ℚ × ℚ × ℚ)
  | .standardDeviationState _ n avg m2 _ => .ok (n, avg, m2)
  | _ => .error (.attributeError "n")

/-- One step of the `MeanState` merge loop: running componentwise sums of
`state.total` and `state.count`. -/
def meanStep (acc : ℚ × Int) (s : State) : Except PyErr (ℚ × Int) := do
  let (t, c) ← s.attrTotalCount
  pure (acc.1 + t, acc.2 + c)

/-- `StateEngine.__merge_states`, translated branch by branch.  `states[0]`
on an empty list raises `IndexError`.  The max/mean/min/num-matches/sum
branches fold over the whole list (the first state is folded with itself);
the quantile/approx-distinct/stddev branches skip index 0 via the `i == 0`
guard and fold the tail.  `sqrt` models `math.sqrt`. -/
def mergeStates {K H : Type} (lib : SketchLib K H) (sqrt : ℚ → ℚ) :
    List State → Except PyErr State
  | [] => .error .indexError
  | first :: rest =>
    match first with
    | .schemaState .. => .ok first
    | .maxState id v => do
        let m ← (first :: rest).foldlM (fun acc s => do
          let x ← s.attrMaxValue
          pure (max acc x)) v
        .ok (.maxState id m)
    | .meanState id _ _ => do
        let (t, c) ← (first :: rest).foldlM meanStep ((0 : ℚ), (0 : Int))
        .ok (.meanState id t c)
    | .minState id v => do
        let m ← (first :: rest).foldlM (fun acc s => do
          let x ← s.attrMinValue
          pure (min acc x)) v
        .ok (.minState id m)
    | .numMatches id _ => do
        let n ← (first :: rest).foldlM (fun (acc : Int) s => do
          let x ← s.attrNumMatches
          pure (acc + x)) (0 : Int)
        .ok (.numMatches id n)
    | .numMatchesAndCount id _ _ => do
        let (n, c) ← (first :: rest).foldlM (fun (acc : Int × Int) s => do
          let (x, y) ← s.attrNumMatchesCount
          pure (acc.1 + x, acc.2 + y)) ((0 : Int), (0 : Int))
        .ok (.numMatchesAndCount id n c)
    | .quantileState id hex q st => do
        let main := lib.kllDeser st hex
        let main ← rest.foldlM (fun acc s => do
          let h ← s.attrSerializedKll
          pure (lib.kllMerge acc (lib.kllDeser st h))) main
        .ok (.quantileState id (lib.kllSer main) q st)
    | .approxDistinctState id hex _ rows => do
        let main := lib.hllDeser hex
        let (main, numRows) ← rest.foldlM (fun (acc : H × Int) s => do
          let (h, r) ← s.attrHllAndRows
          pure (lib.hllUpdate acc.1 (lib.hllDeser h), acc.2 + r)) (main, rows)
        .ok (.approxDistinctState id (lib.hllSerUpd main) (lib.hllEstimate main) numRows)
    | .standardDeviationState id n avg m2 _ => do
        let (n, avg, m2) ← rest.foldlM (fun (acc : ℚ × ℚ × ℚ) s => do
          let (n', avg', m2') ← s.attrStddevFields
          let (n, avg, m2) := acc
          let newN := n + n'
          let newAvg := (n' * avg' + n * avg) / newN
          let delta := avg' - avg
          pure (newN, newAvg, m2' + m2 + delta * delta * n' * n / newN)) (n, avg, m2)
        let stddev := if n > 1 then sqrt (m2 / (n - 1)) else 0
        .ok (.standardDeviationState id n avg m2 stddev)
    | .sumState id _ => do
        let v ← (first :: rest).foldlM (fun (acc : ℚ) s => do
          let x ← s.attrSumValue
          pure (acc + x)) (0 : ℚ)
        .ok (.sumState id v)
    | .frequenciesAndNumRows .. =>
        .error (.notImplementedError
          "Merging of FrequenciesAndNumRows states not implemented, yet")

/-- A concrete sketch-library instance used to discharge hypotheses at
concrete inputs: a KLL sketch is its `(sketch_type, serialized bytes)` pair
and an HLL sketch its serialized bytes, so the serialization roundtrips
hold definitionally. -/
def idLib : SketchLib (String × String) String where
  kllDeser st hex := (st, hex)
  kllMerge a _ := a
  kllSer k := k.2
  kllGetQuantile _ _ := 0
  hllDeser hex := hex
  hllUpdate a _ := a
  hllEstimate _ := 0
  hllSerUpd h := h

/-- A concrete stand-in for `math.sqrt` (only ever applied where its value is
pinned by a hypothesis or irrelevant). -/
def sqrt0 : ℚ → ℚ := fun _ => 0

/-- Is a state the tabular `FrequenciesAndNumRows` variant? -/
def State.isFreq : State → Bool
  | .frequenciesAndNumRows .. => true
  | _ => false

/-- Does an `Except` result carry a `StateMergingException`? -/
def isStateMergingErr {α : Type} : Except PyErr α → Bool
  | .error (.stateMergingException _) => true
  | _ => false

/-- C4 counterexample.  Merging a (singleton) sequence of
`FrequenciesAndNumRows` states raises `NotImplementedError`
(`state_engine.py` line 150), not `StateMergingException` as claimed: the
`StateMergingException` class exists in `utils/exceptions.py` but this code
path never raises it. -/
theorem freq_merge_raises_notImplemented_not_stateMerging :
    mergeStates idLib sqrt0 [.frequenciesAndNumRows 1 "dq_state_freq_1" ["att1"] 3]
        = .error (.notImplementedError
            "Merging of FrequenciesAndNumRows states not implemented, yet")
      ∧ isStateMergingErr
          (mergeStates idLib sqrt0
            [.frequenciesAndNumRows 1 "dq_state_freq_1" ["att1"] 3]) = false :=
  ⟨rfl, rfl⟩

/-- C4 (amended).  For every non-empty sequence of `FrequenciesAndNumRows`
states, merging raises `NotImplementedError` ("Merging of
FrequenciesAndNumRows states not implemented, yet"); the raise is not
caught inside the state engine, so it propagates to the caller of the
merge. -/
theorem freq_merge_raises_notImplemented {K H : Type} (lib : SketchLib K H)
    (sqrt : ℚ → ℚ) (states : List State) (hne : states ≠ [])
    (hfreq : ∀ s ∈ states, s.isFreq = true) :
    mergeStates lib sqrt states
      = .error (.notImplementedError
          "Merging of FrequenciesAndNumRows states not implemented, yet") := by
  match states, hne with
  | first :: rest, _ =>
    have h := hfreq first (List.mem_cons_self _ _)
    cases first <;> simp_all [State.isFreq, mergeStates]

/-- Witness for `freq_merge_raises_notImplemented`. -/
theorem freq_merge_raises_notImplemented_witness :
    mergeStates idLib sqrt0 [.frequenciesAndNumRows 2 "dq_state_freq_2" ["c"] 5]
      = .error (.notImplementedError
          "Merging of FrequenciesAndNumRows states not implemented, yet") :=
  freq_merge_raises_notImplemented idLib sqrt0 _ (by simp)
    (by intro s hs; simp at hs; subst hs; rfl)

/-- The state invariants declared by the specification that the singleton
merge identity relies on: a `StandardDeviationState` carries
`stddev = sqrt(m2/(n-1))` (0 when `n ≤ 1`), and an `ApproxDistinctState`
carries the estimate its serialized sketch yields.  Both hold for every
state the engines construct. -/
def State.mergeWf {K H : Type} (lib : SketchLib K H) (sqrt : ℚ → ℚ) : State → Prop
  | .standardDeviationState _ n _ m2 sd => sd = if n > 1 then sqrt (m2 / (n - 1)) else 0
  | .approxDistinctState _ hex est _ => est = lib.hllEstimate (lib.hllDeser hex)
  | _ => True

/-- C5.  For every mergeable state variant (everything except
`FrequenciesAndNumRows`), merging a singleton list returns the input state:
`merge([s]) == s`.  The sketch-library hypotheses are the serialization
roundtrips of the external datasketches primitives; `mergeWf` is the
spec-declared state invariant. -/
theorem merge_singleton_id {K H : Type} (lib : SketchLib K H) (sqrt : ℚ → ℚ)
    (s : State) (hmergeable : s.isFreq = false)
    (hkll : ∀ st hex, lib.kllSer (lib.kllDeser st hex) = hex)
    (hhll : ∀ hex, lib.hllSerUpd (lib.hllDeser hex) = hex)
    (hwf : s.mergeWf lib sqrt) :
    mergeStates lib sqrt [s] = .ok s := by
  cases s with
  | schemaState id sch => rfl
  | maxState id v =>
      show Except.ok (State.maxState id (max v v)) = _
      rw [max_self]
  | meanState id t c =>
      show Except.ok (State.meanState id (0 + t) (0 + c)) = _
      rw [zero_add, zero_add]
  | minState id v =>
      show Except.ok (State.minState id (min v v)) = _
      rw [min_self]
  | numMatches id n =>
      show Except.ok (State.numMatches id (0 + n)) = _
      rw [zero_add]
  | numMatchesAndCount id n c =>
      show Except.ok (State.numMatchesAndCount id (0 + n) (0 + c)) = _
      rw [zero_add, zero_add]
  | quantileState id hex q st =>
      show Except.ok (State.quantileState id (lib.kllSer (lib.kllDeser st hex)) q st) = _
      rw [hkll]
  | approxDistinctState id hex est rows =>
      show Except.ok (State.approxDistinctState id (lib.hllSerUpd (lib.hllDeser hex))
        (lib.hllEstimate (lib.hllDeser hex)) rows) = _
      rw [hhll]
      simp only [State.mergeWf] at hwf
      rw [← hwf]
  | standardDeviationState id n avg m2 sd =>
      show Except.ok (State.standardDeviationState id n avg m2
        (if n > 1 then sqrt (m2 / (n - 1)) else 0)) = _
      simp only [State.mergeWf] at hwf
      rw [← hwf]
  | sumState id v =>
      show Except.ok (State.sumState id (0 + v)) = _
      rw [zero_add]
  | frequenciesAndNumRows id t cols rows => simp [State.isFreq] at hmergeable

/-- Witness for `merge_singleton_id` at a `MinState` and the concrete
library instance. -/
theorem merge_singleton_id_witness :
    mergeStates idLib sqrt0 [.minState 7 5] = .ok (.minState 7 5) :=
  merge_singleton_id idLib sqrt0 (.minState 7 5) rfl (fun _ _ => rfl) (fun _ => rfl)
    trivial

/-! ## SQL operator layer (`engines/sql/sql_operators.py`)

Aggregations are the literal SQL fragment strings the operators build.
A fetched result row maps a column alias to its value; `RowVal.obj` models
the parsed JSON object DuckDB's `STDDEV_STATE` aggregate returns (fields
`count`, `mean`, `dsquared`, `stddev`). -/

/-- A value in a fetched result row. -/
inductive RowVal where
  | num (q : ℚ)
  | obj (count mean dsquared stddev : ℚ)
  deriving DecidableEq, Repr

/-- A single result row: alias → value; `none` is a missing column
(pandas raises `KeyError`). -/
def Row := String → Option RowVal

/-- `result[col][0]` lookup. -/
def rowGet (r : Row) (colAlias : String) : Except PyErr RowVal :=
  match r colAlias with
  | some v => .ok v
  | none => .error (.keyError colAlias)

/-- Python `int(...)` on a row value: truncation toward zero (`Int` division
in Lean is T-division, matching CPython `int()` on exact rationals). -/
def pyIntOf : RowVal → Except PyErr Int
  | .num q => .ok (q.num / (q.den : Int))
  | .obj .. => .error (.typeError "int() argument must not be a dict")

/-- Python `float(...)` on a row value. -/
def pyFloatOf : RowVal → Except PyErr ℚ
  | .num q => .ok q
  | .obj .. => .error (.typeError "float() argument must not be a dict")

/-- Process-dependent CPython pieces the operator layer calls:
`hash(str)` (randomized per interpreter run) and `hash(Grouping)`, both
passed through `ctypes.c_size_t`. -/
structure PyCtx where
  strHash : String → Nat
  groupingHash : List String × String × Option String → Nat

/-- `Property.filter_identifier`: `""` when `where is None`, else
`str(c_size_t(hash(self.where)).value)` once interpolated into an alias. -/
def filterIdentifier (ctx : PyCtx) (w : Option String) : String :=
  match w with
  | none => ""
  | some s => toString (ctx.strHash s % 2 ^ 64)

/-- A `ScanShareableOperator`: its aggregation fragments plus the
`extract_state`/`get_metric` closures. -/
structure ScanOp where
  prop : Property
  aggs : List String
  extractState : Row → Except PyErr State
  getMetric : State → Except PyErr Metric

/-- A `GroupingShareableOperator`: aggregations over the frequencies table,
the grouping column set, the filter, the `num_rows` alias, and
`extract_metric`. -/
structure GroupOp where
  prop : Property
  aggs : List String
  groupings : List String
  filterF : Option String
  numRowsCol : String
  extractMetric : Row → Int → Except PyErr Metric

def joinComma (l : List String) : String := String.intercalate ", " l

/-- Python `set.add`: list-with-dedup, keeping insertion order. -/
def setAdd (l : List String) (x : String) : List String :=
  if l.contains x then l else l ++ [x]

def setAddAll (l : List String) (xs : List String) : List String :=
  xs.foldl setAdd l

/-- `MeanOperator.get_metric`: `state.total / state.count` (true division). -/
def meanGetMetric (p : Property) (s : State) : Except PyErr Metric := do
  let (t, c) ← s.attrTotalCount
  .ok (metricFromValue (.double (t / (c : ℚ))) p.name p.inst p.entity)

/-- `SizeOperator`. -/
def sizeOp (ctx : PyCtx) (p : Property) : ScanOp :=
  let countCol := "count" ++ filterIdentifier ctx p.whereF
  { prop := p
    aggs := match p.whereF with
      | none => ["COUNT(*) as " ++ countCol]
      | some w => ["SUM(CASE WHEN " ++ w ++ " THEN 1 ELSE 0 END) as " ++ countCol]
    extractState := fun row => do
      let c ← pyIntOf (← rowGet row countCol)
      .ok (.numMatches p.propertyIdentifier c)
    getMetric := fun s => do
      let n ← s.attrNumMatches
      .ok (metricFromValue (.double (n : ℚ)) p.name p.inst p.entity) }

/-- `CompletenessOperator`. -/
def completenessOp (ctx : PyCtx) (p : Property) (column : String) : ScanOp :=
  let countCol := "count" ++ filterIdentifier ctx p.whereF
  let countNaCol := (column ++ "_count_na" ++ toString p.propertyIdentifier).toLower
  { prop := p
    aggs := match p.whereF with
      | none => ["COUNT(*) as " ++ countCol,
          "SUM(CASE WHEN " ++ column ++ " IS NULL THEN 1 ELSE 0 END) as " ++ countNaCol]
      | some w => ["SUM(CASE WHEN " ++ w ++ " THEN 1 ELSE 0 END) as " ++ countCol,
          "SUM(CASE WHEN (" ++ w ++ ") AND (" ++ column
            ++ ") IS NULL THEN 1 ELSE 0 END) as " ++ countNaCol]
    extractState := fun row => do
      let c ← pyIntOf (← rowGet row countCol)
      let na ← pyIntOf (← rowGet row countNaCol)
      .ok (.numMatchesAndCount p.propertyIdentifier (c - na) c)
    getMetric := fun s => do
      let (n, c) ← s.attrNumMatchesCount
      .ok (metricFromValue (.double ((n : ℚ) / (c : ℚ))) p.name p.inst p.entity) }

/-- `ComplianceOperator`. -/
def complianceOp (ctx : PyCtx) (p : Property) (expression : String) : ScanOp :=
  let countCol := "count" ++ filterIdentifier ctx p.whereF
  let compCol := ("count_compliance" ++ toString p.propertyIdentifier).toLower
  { prop := p
    aggs := match p.whereF with
      | none => ["COUNT(*) as " ++ countCol,
          "SUM(CASE WHEN (" ++ expression ++ ") THEN 1 ELSE 0 END) as " ++ compCol]
      | some w => ["SUM(CASE WHEN (" ++ w ++ ") THEN 1 ELSE 0 END) as " ++ countCol,
          "SUM(CASE WHEN (" ++ w ++ ") AND (" ++ expression
            ++ ") THEN 1 ELSE 0 END) as " ++ compCol]
    extractState := fun row => do
      let c ← pyIntOf (← rowGet row countCol)
      let comp ← pyIntOf (← rowGet row compCol)
      .ok (.numMatchesAndCount p.propertyIdentifier comp c)
    getMetric := fun s => do
      let (n, c) ← s.attrNumMatchesCount
      .ok (metricFromValue (.double ((n : ℚ) / (c : ℚ))) p.name p.inst p.entity) }

/-- `PatternMatchOperator`. -/
def patternMatchOp (ctx : PyCtx) (p : Property) (column pattern : String) : ScanOp :=
  let countCol := "count" ++ filterIdentifier ctx p.whereF
  let pmCol := ("count_pattern_match" ++ toString p.propertyIdentifier).toLower
  { prop := p
    aggs := match p.whereF with
      | none => ["COUNT(*) as " ++ countCol,
          "SUM(CASE WHEN regexp_full_match(" ++ column ++ ",'" ++ pattern
            ++ "') THEN 1 ELSE 0 END) as " ++ pmCol]
      | some w => ["SUM(CASE WHEN (" ++ w ++ ") THEN 1 ELSE 0 END) as " ++ countCol,
          "SUM(CASE WHEN (" ++ w ++ ") AND (regexp_full_match(" ++ column ++ ",'"
            ++ pattern ++ "')) THEN 1 ELSE 0 END) as " ++ pmCol]
    extractState := fun row => do
      let c ← pyIntOf (← rowGet row countCol)
      let pm ← pyIntOf (← rowGet row pmCol)
      .ok (.numMatchesAndCount p.propertyIdentifier pm c)
    getMetric := fun s => do
      let (n, c) ← s.attrNumMatchesCount
      .ok (metricFromValue (.double ((n : ℚ) / (c : ℚ))) p.name p.inst p.entity) }

/-- `MaxLengthOperator`. -/
def maxLengthOp (_ctx : PyCtx) (p : Property) (column : String) : ScanOp :=
  let lenCol := "max_len" ++ toString p.propertyIdentifier
  { prop := p
    aggs := match p.whereF with
      | none => ["max(length(" ++ column ++ ")) as " ++ lenCol]
      | some w => ["max(CASE WHEN " ++ w ++ " THEN length(" ++ column
          ++ ") ELSE NULL END) as " ++ lenCol]
    extractState := fun row => do
      let v ← pyIntOf (← rowGet row lenCol)
      .ok (.maxState p.propertyIdentifier (v : ℚ))
    getMetric := fun s => do
      let v ← s.attrMaxValue
      .ok (metricFromValue (.double v) p.name p.inst p.entity) }

/-- `MinLengthOperator`. -/
def minLengthOp (_ctx : PyCtx) (p : Property) (column : String) : ScanOp :=
  let lenCol := "min_len" ++ toString p.propertyIdentifier
  { prop := p
    aggs := match p.whereF with
      | none => ["min(length(" ++ column ++ ")) as " ++ lenCol]
      | some w => ["min(CASE WHEN (" ++ w ++ ") THEN length(" ++ column
          ++ ") ELSE NULL END) as " ++ lenCol]
    extractState := fun row => do
      let v ← pyIntOf (← rowGet row lenCol)
      .ok (.minState p.propertyIdentifier (v : ℚ))
    getMetric := fun s => do
      let v ← s.attrMinValue
      .ok (metricFromValue (.double v) p.name p.inst p.entity) }

/-- `MinimumOperator`.  The filtered aggregation string reproduces the
source verbatim, including its unbalanced parenthesis (`sql_operators.py`
line 285). -/
def minimumOp (_ctx : PyCtx) (p : Property) (column : String) : ScanOp :=
  let minCol := "min" ++ toString p.propertyIdentifier
  { prop := p
    aggs := match p.whereF with
      | none => ["min(" ++ column ++ ") as " ++ minCol]
      | some w => ["min(CASE WHEN (" ++ w ++ ") THEN " ++ column
          ++ ") ELSE NULL END) as " ++ minCol]
    extractState := fun row => do
      let v ← pyFloatOf (← rowGet row minCol)
      .ok (.minState p.propertyIdentifier v)
    getMetric := fun s => do
      let v ← s.attrMinValue
      .ok (metricFromValue (.double v) p.name p.inst p.entity) }

/-- `MaximumOperator`. -/
def maximumOp (_ctx : PyCtx) (p : Property) (column : String) : ScanOp :=
  let maxCol := "max" ++ toString p.propertyIdentifier
  { prop := p
    aggs := match p.whereF with
      | none => ["max(" ++ column ++ ") as " ++ maxCol]
      | some w => ["max(CASE WHEN (" ++ w ++ ") THEN " ++ column
          ++ " ELSE NULL END) as " ++ maxCol]
    extractState := fun row => do
      let v ← pyFloatOf (← rowGet row maxCol)
      .ok (.maxState p.propertyIdentifier v)
    getMetric := fun s => do
      let v ← s.attrMaxValue
      .ok (metricFromValue (.double v) p.name p.inst p.entity) }

/-- `MeanOperator`. -/
def meanOp (ctx : PyCtx) (p : Property) (column : String) : ScanOp :=
  let countCol := "count" ++ filterIdentifier ctx p.whereF
  let totalCol := "total" ++ toString p.propertyIdentifier
  { prop := p
    aggs := match p.whereF with
      | none => ["COUNT(*) as " ++ countCol, "SUM(" ++ column ++ ") as " ++ totalCol]
      | some w => ["SUM(CASE WHEN (" ++ w ++ ") THEN 1 ELSE 0 END) as " ++ countCol,
          "SUM(CASE WHEN (" ++ w ++ ") THEN " ++ column
            ++ " ELSE NULL END) as " ++ totalCol]
    extractState := fun row => do
      let t ← pyFloatOf (← rowGet row totalCol)
      let c ← pyIntOf (← rowGet row countCol)
      .ok (.meanState p.propertyIdentifier t c)
    getMetric := meanGetMetric p }

/-- `SumOperator`. -/
def sumOp (_ctx : PyCtx) (p : Property) (column : String) : ScanOp :=
  let sumCol := "total" ++ toString p.propertyIdentifier
  { prop := p
    aggs := match p.whereF with
      | none => ["SUM(" ++ column ++ ") as " ++ sumCol]
      | some w => ["SUM(CASE WHEN (" ++ w ++ ") THEN " ++ column
          ++ " ELSE NULL END) as " ++ sumCol]
    extractState := fun row => do
      let v ← pyFloatOf (← rowGet row sumCol)
      .ok (.sumState p.propertyIdentifier v)
    getMetric := fun s => do
      let v ← s.attrSumValue
      .ok (metricFromValue (.double v) p.name p.inst p.entity) }

/-- `StandardDeviationOperator`; `extract_state` parses the JSON object the
`STDDEV_STATE` aggregate returns. -/
def standardDeviationOp (_ctx : PyCtx) (p : Property) (column : String) : ScanOp :=
  let sdCol := "stddev_" ++ toString p.propertyIdentifier
  { prop := p
    aggs := match p.whereF with
      | none => ["STDDEV_STATE(" ++ column ++ ") as " ++ sdCol]
      | some w => ["STDDEV_STATE(CASE WHEN (" ++ w ++ ") THEN " ++ column
          ++ " ELSE NULL END) as " ++ sdCol]
    extractState := fun row => do
      match ← rowGet row sdCol with
      | .obj c m d s => .ok (.standardDeviationState p.propertyIdentifier c m d s)
      | .num _ => .error (.typeError "string indices must be integers")
    getMetric := fun s =>
      match s with
      | .standardDeviationState _ _ _ _ sd =>
          .ok (metricFromValue (.double sd) p.name p.inst p.entity)
      | _ => .error (.attributeError "stddev") }

/-- `UniquenessOperator`. -/
def uniquenessOp (ctx : PyCtx) (p : Property) (columns : List String) : GroupOp :=
  { prop := p
    aggs := ["SUM(CASE WHEN count = 1 THEN 1 ELSE 0 END) as unique_count"]
    groupings := columns
    filterF := p.whereF
    numRowsCol := "count" ++ filterIdentifier ctx p.whereF
    extractMetric := fun row numRows => do
      let u ← pyIntOf (← rowGet row "unique_count")
      .ok (metricFromValue (.double ((u : ℚ) / (numRows : ℚ))) p.name p.inst p.entity) }

/-- `DistinctnessOperator`. -/
def distinctnessOp (ctx : PyCtx) (p : Property) (columns : List String) : GroupOp :=
  { prop := p
    aggs := ["SUM(CASE WHEN count >= 1 THEN 1 ELSE 0 END) as distinct_count"]
    groupings := columns
    filterF := p.whereF
    numRowsCol := "count" ++ filterIdentifier ctx p.whereF
    extractMetric := fun row numRows => do
      let d ← pyIntOf (← rowGet row "distinct_count")
      .ok (metricFromValue (.double ((d : ℚ) / (numRows : ℚ))) p.name p.inst p.entity) }

/-- `UniqueValueRatioOperator`. -/
def uniqueValueRatioOp (ctx : PyCtx) (p : Property) (columns : List String) : GroupOp :=
  { prop := p
    aggs := ["SUM(CASE WHEN count >= 1 THEN 1 ELSE 0 END) as distinct_count",
      "SUM(CASE WHEN count = 1 THEN 1 ELSE 0 END) as unique_count"]
    groupings := columns
    filterF := p.whereF
    numRowsCol := "count" ++ filterIdentifier ctx p.whereF
    extractMetric := fun row _numRows => do
      let d ← pyIntOf (← rowGet row "distinct_count")
      let u ← pyIntOf (← rowGet row "unique_count")
      .ok (metricFromValue (.double ((u : ℚ) / (d : ℚ))) p.name p.inst p.entity) }

/-- The result of `SQLOperatorFactory.create_operator`: a scan operator, a
grouping operator, or a bare `SQLOperator` instance (the
`HistogramPropertyOperator`/`ApproxDistinctOperator` placeholder classes,
which the engine later rejects as neither scan nor grouping). -/
inductive SQLOp where
  | scan (op : ScanOp)
  | group (op : GroupOp)
  | other (className : String)

/-- `SQLOperatorFactory.create_operator`.  Kinds absent from the factory map
raise `UnsupportedPropertyException`; `Quantile` maps to the abstract
`QuantileOperator` whose single-argument instantiation raises `TypeError`
(`ScanShareableOperator.__init__` requires an `aggregations` argument).
Exception message texts are abridged (quotes omitted). -/
def createOperator (ctx : PyCtx) (p : Property) : Except PyErr SQLOp :=
  match p.kind with
  | .size => .ok (.scan (sizeOp ctx p))
  | .completeness c => .ok (.scan (completenessOp ctx p c))
  | .compliance _ e => .ok (.scan (complianceOp ctx p e))
  | .patternMatch c pat => .ok (.scan (patternMatchOp ctx p c pat))
  | .maxLength c => .ok (.scan (maxLengthOp ctx p c))
  | .minLength c => .ok (.scan (minLengthOp ctx p c))
  | .minimum c => .ok (.scan (minimumOp ctx p c))
  | .maximum c => .ok (.scan (maximumOp ctx p c))
  | .mean c => .ok (.scan (meanOp ctx p c))
  | .sum c => .ok (.scan (sumOp ctx p c))
  | .standardDeviation c => .ok (.scan (standardDeviationOp ctx p c))
  | .uniqueness cs => .ok (.group (uniquenessOp ctx p cs))
  | .distinctness cs => .ok (.group (distinctnessOp ctx p cs))
  | .uniqueValueRatio cs => .ok (.group (uniqueValueRatioOp ctx p cs))
  | .quantile .. => .error (.typeError
      "ScanShareableOperator.__init__ missing 1 required positional argument: aggregations")
  | .histogram .. => .ok (.other "HistogramPropertyOperator")
  | .approxDistinctness _ => .ok (.other "ApproxDistinctOperator")
  | .schema => .error (.unsupportedProperty
      "Property Schema not supported by SQL Engine.")
  | .entropy _ => .error (.unsupportedProperty
      "Property Entropy not supported by SQL Engine.")
  | .correlation .. => .error (.unsupportedProperty
      "Property Correlation not supported by SQL Engine.")
  | .kllSketch .. => .error (.unsupportedProperty
      "Property KllSketch not supported by SQL Engine.")

/-! ## C6: merging MeanStates sums componentwise -/

/-- `meanStep` on a `MeanState` adds its components. -/
theorem meanStep_meanState (acc : ℚ × Int) (i : Nat) (t : ℚ) (c : Int) :
    meanStep acc (.meanState i t c) = Except.ok (acc.1 + t, acc.2 + c) := rfl

/-- The mean-merge fold over a list of `MeanState`s accumulates the
componentwise sums. -/
theorem meanStep_fold (l : List (Nat × ℚ × Int)) (acc : ℚ × Int) :
    List.foldlM meanStep acc (l.map fun x => State.meanState x.1 x.2.1 x.2.2)
      = Except.ok (acc.1 + (l.map fun x => x.2.1).sum,
          acc.2 + (l.map fun x => x.2.2).sum) := by
  induction l generalizing acc with
  | nil =>
      simp only [List.map_nil, List.foldlM, List.sum_nil, add_zero]
      rfl
  | cons hd tl ih =>
      simp only [List.map_cons, List.foldlM, meanStep_meanState]
      show List.foldlM meanStep (acc.1 + hd.2.1, acc.2 + hd.2.2) _ = _
      rw [ih]
      simp [add_assoc]

/-- Merging any non-empty sequence of `MeanState`s yields the componentwise
sums, keyed by the first state's id. -/
theorem mean_merge_general {K H : Type} (lib : SketchLib K H) (sqrt : ℚ → ℚ)
    (i : Nat) (t : ℚ) (c : Int) (rest : List (Nat × ℚ × Int)) :
    mergeStates lib sqrt
        (.meanState i t c :: rest.map fun x => State.meanState x.1 x.2.1 x.2.2)
      = .ok (.meanState i (t + (rest.map fun x => x.2.1).sum)
          (c + (rest.map fun x => x.2.2).sum)) := by
  have h := meanStep_fold ((i, t, c) :: rest) (0, 0)
  simp only [List.map_cons, List.sum_cons, zero_add] at h
  show (List.foldlM meanStep ((0 : ℚ), (0 : Int))
      (State.meanState i t c :: rest.map fun x => State.meanState x.1 x.2.1 x.2.2)) >>=
        _ = _
  rw [h]
  rfl

/-- `Mean("att1")`. -/
def pMeanAtt1 : Property := ⟨.mean "att1", none⟩

/-- The `MeanState` the scan pass extracts for an unfiltered `Mean` property
on a concrete column: DuckDB evaluates `COUNT(*)` to the row count and
`SUM(col)` to the column sum, and `MeanOperator.extract_state` stores them
keyed by the property identifier. -/
def meanScanState (p : Property) (col : List ℚ) : State :=
  .meanState p.propertyIdentifier col.sum col.length

/-- C6.  Merging `MeanState`s yields the componentwise sums
`(Σ totalᵢ, Σ countᵢ)`; merging the `MeanState`s of partitions
`att1=[1,2,3]` and `att1=[4,5,6]` yields `MeanState{total=21, count=6}`,
whose derived Mean metric `21/6 = 3.5` equals the metric computed directly
over `att1=[1,2,3,4,5,6]`. -/
theorem meanState_merge_componentwise :
    (∀ {K H : Type} (lib : SketchLib K H) (sqrt : ℚ → ℚ) (i : Nat) (t : ℚ) (c : Int)
      (rest : List (Nat × ℚ × Int)),
      mergeStates lib sqrt
          (.meanState i t c :: rest.map fun x => State.meanState x.1 x.2.1 x.2.2)
        = .ok (.meanState i (t + (rest.map fun x => x.2.1).sum)
            (c + (rest.map fun x => x.2.2).sum)))
    ∧ mergeStates idLib sqrt0
          [meanScanState pMeanAtt1 [1, 2, 3], meanScanState pMeanAtt1 [4, 5, 6]]
        = .ok (.meanState pMeanAtt1.propertyIdentifier 21 6)
    ∧ meanGetMetric pMeanAtt1 (.meanState pMeanAtt1.propertyIdentifier 21 6)
        = .ok ⟨.COLUMN, "Mean", "att1", .success (.double (7 / 2)), false⟩
    ∧ meanGetMetric pMeanAtt1 (.meanState pMeanAtt1.propertyIdentifier 21 6)
        = meanGetMetric pMeanAtt1 (meanScanState pMeanAtt1 [1, 2, 3, 4, 5, 6]) := by
  refine ⟨fun lib sqrt i t c rest => mean_merge_general lib sqrt i t c rest,
    by with_unfolding_all rfl, by with_unfolding_all rfl,
    by with_unfolding_all rfl⟩

/-! ## Property→Metric maps (CPython dict semantics) -/

/-- CPython `dict`/`set` key identity: equal hash and `__eq__`-equal. -/
def dictKeyMatch (p q : Property) : Bool :=
  (p.pyHash == q.pyHash) && Property.pyEq p q

abbrev MetricMap := List (Property × Metric)

/-- `d[k] = v`: update the matching entry in place (keeping the original key
object, as CPython does) or append. -/
def MetricMap.put (m : MetricMap) (k : Property) (v : Metric) : MetricMap :=
  if m.any fun kv => dictKeyMatch kv.1 k then
    m.map fun kv => if dictKeyMatch kv.1 k then (kv.1, v) else kv
  else m ++ [(k, v)]

/-- `d.get(k)`. -/
def MetricMap.get (m : MetricMap) (k : Property) : Option Metric :=
  (m.find? fun kv => dictKeyMatch kv.1 k).map Prod.snd

/-- `{**a, **b}`: entries of `b` override/extend `a`. -/
def MetricMap.merge (a b : MetricMap) : MetricMap :=
  b.foldl (fun m kv => m.put kv.1 kv.2) a

/-! ## Metric re-derivation from states
(`StateEngine.metrics_from_states`, lines 160-194) -/

def State.attrSketchType : State → Except PyErr String
  | .quantileState _ _ _ st => .ok st
  | _ => .error (.attributeError "sketch_type")

def State.attrSchema : State → Except PyErr (List (String × String))
  | .schemaState _ s => .ok s
  | _ => .error (.attributeError "schema")

/-- Attribute lookup `state.approx_distinct_count` performed by
`metrics_from_states` (`state_engine.py` line 177).  No state variant
declares a field of this name — `ApproxDistinctState` declares `estimate`
(`core/states.py` lines 76-80) — so the lookup raises `AttributeError` for
every state. -/
def State.attrApproxDistinctCount : State → Except PyErr ℚ :=
  fun _ => .error (.attributeError "approx_distinct_count")

def State.attrNumRows : State → Except PyErr Int
  | .approxDistinctState _ _ _ r => .ok r
  | .frequenciesAndNumRows _ _ _ r => .ok r
  | _ => .error (.attributeError "num_rows")

/-- One entry of `metrics_from_states`: re-derive the metric of `prop` from
its merged state.  Non-sketch, non-schema properties go through
`SQLOperatorFactory.create_operator(prop).get_metric(state)`; grouping
operators and the bare placeholder operators have no `get_metric`, so that
call raises `AttributeError`. -/
def metricsFromStatesEntry {K H : Type} (lib : SketchLib K H) (ctx : PyCtx)
    (p : Property) (s : State) : Except PyErr Metric :=
  match p.kind with
  | .quantile _ q => do
      let st ← s.attrSketchType
      let hex ← s.attrSerializedKll
      let v := lib.kllGetQuantile (lib.kllDeser st hex) q
      .ok (metricFromValue (.double v) p.name p.inst p.entity)
  | .approxDistinctness _ => do
      let est ← s.attrApproxDistinctCount
      let rows ← s.attrNumRows
      .ok (metricFromValue (.double (min (est / (rows : ℚ)) 1)) p.name p.inst p.entity)
  | .schema => do
      let sch ← s.attrSchema
      .ok (metricFromValue (.schemaMap sch) p.name p.inst p.entity)
  | _ => do
      match ← createOperator ctx p with
      | .scan op => op.getMetric s
      | .group _ => .error (.attributeError "get_metric")
      | .other _ => .error (.attributeError "get_metric")

/-- `metrics_from_states` over the merged property/state pairs; any raise
propagates to the caller. -/
def metricsFromStates {K H : Type} (lib : SketchLib K H) (ctx : PyCtx)
    (l : List (Property × State)) : Except PyErr MetricMap :=
  l.foldlM (fun m ps => do
    let metric ← metricsFromStatesEntry lib ctx ps.1 ps.2
    pure (m.put ps.1 metric)) []

/-! ## Sketch engine direct path (`engines/pandas/pandas_engine.py`) -/

/-- The `ApproxDistinctness` section of `PandasEngine.compute_metrics`
(lines 91-108): the HLL sketch has ingested the column (externally); the
state stores the serialized sketch, its estimate and the row count
`len(data_col)`, and the metric value is `min(estimate / num_rows, 1.00)`. -/
def pandasApproxDistinct {H : Type} (hllEst : H → ℚ) (hllSerU : H → String)
    (p : Property) (hll : H) (numRows : Int) : State × Metric :=
  let est := hllEst hll
  let state := State.approxDistinctState p.propertyIdentifier (hllSerU hll) est numRows
  let v := min (est / (numRows : ℚ)) 1
  (state, metricFromValue (.double v) p.name p.inst p.entity)

/-- A concrete `PyCtx` for evaluating at concrete inputs. -/
def pyCtx0 : PyCtx := ⟨fun _ => 0, fun _ => 0⟩

/-- C7.  The direct sketch-engine path emits a `DoubleMetric` whose value is
`min(estimate/num_rows, 1.0)` (first conjunct), but the incremental path —
re-deriving the metric from a stored or merged `ApproxDistinctState` in
`metrics_from_states` — reads the nonexistent attribute
`approx_distinct_count` (the dataclass field is named `estimate`) and
raises `AttributeError` instead of producing that value. -/
theorem approxDistinct_direct_ok_incremental_raises {H : Type} (hllEst : H → ℚ)
    (hllSerU : H → String) (p : Property) (hll : H) (numRows : Int) :
    (pandasApproxDistinct hllEst hllSerU p hll numRows).2.value
        = .success (.double (min (hllEst hll / (numRows : ℚ)) 1))
      ∧ metricsFromStatesEntry idLib pyCtx0 ⟨.approxDistinctness "att1", none⟩
          (.approxDistinctState 11 "0a" 2 3)
        = .error (.attributeError "approx_distinct_count") :=
  ⟨rfl, rfl⟩

/-! ## Aggregation planner / SQL engine
(`engines/sql/sql_engine.py`, `SQLEngine.compute_metrics`) -/

/-- The frozen `Grouping` dataclass: the key under which grouping operators
are bucketed.  `grouping_cols` is a frozenset in the source; it is carried
here as the construction-ordered list. -/
structure Grouping where
  groupingCols : List String
  numRowsCol : String
  filterF : Option String
  deriving DecidableEq, Repr

/-- `Grouping.get_num_rows_aggregation`; note the Python truthiness test
`if not self.filter` treats both `None` and `""` as absent. -/
def Grouping.numRowsAgg (g : Grouping) : String :=
  match g.filterF with
  | none => "COUNT(*) as " ++ g.numRowsCol
  | some w =>
      if w = "" then "COUNT(*) as " ++ g.numRowsCol
      else "SUM(CASE WHEN " ++ w ++ " THEN 1 ELSE 0 END) as " ++ g.numRowsCol

/-- The engine-side externals: the table name, the schema returned by
`get_schema()`, the DuckDB executor behind `execute_and_fetch`, and the
`no_sharing` flag. -/
structure EngineCtx where
  table : String
  schema : List (String × String)
  exec : String → Row
  noSharing : Bool

/-- The repository-side externals: `get_frequency_table_name` and
`is_local_state_handler(repo)`. -/
structure RepoCtx where
  freqTableName : Nat → String
  isLocal : Bool

/-- What one `compute_metrics` run produces: the Property→Metric map, every
SQL string issued (to `execute_and_fetch` and `execute_and_store`), and the
states passed to `register_state`, in order. -/
structure ComputeResult where
  metrics : MetricMap
  queries : List String
  states : List State
  deriving DecidableEq, Repr

/-- Accumulator of the operator-instantiation loop. -/
structure PlanAcc where
  schemaProp : Option Property
  scans : List ScanOp
  groups : List (Grouping × List GroupOp)
  metrics : MetricMap

/-- `grouping_operator_groups.setdefault(key, []) += [operator]`. -/
def groupsPut (gs : List (Grouping × List GroupOp)) (key : Grouping) (op : GroupOp) :
    List (Grouping × List GroupOp) :=
  if gs.any fun g => g.1 = key then
    gs.map fun g => if g.1 = key then (g.1, g.2 ++ [op]) else g
  else gs ++ [(key, [op])]

/-- The first loop of `compute_metrics` (lines 81-100): remember the schema
property, instantiate each remaining property's operator, push scan
operators, bucket grouping operators by their `Grouping` key, convert
`UnsupportedPropertyException` into a failure metric, and raise
`UnknownOperatorTypeException` for operators that are neither scan nor
grouping. -/
def planProperties (ctx : PyCtx) (props : List Property) : Except PyErr PlanAcc :=
  props.foldlM (fun acc property =>
    match property.kind with
    | .schema => .ok { acc with schemaProp := some property }
    | _ =>
      match createOperator ctx property with
      | .error (.unsupportedProperty msg) =>
          .ok { acc with metrics :=
            acc.metrics.put property (metricFromFailure (.unsupportedProperty msg) property) }
      | .error e => .error e
      | .ok (.scan op) => .ok { acc with scans := acc.scans ++ [op] }
      | .ok (.group op) =>
          let key : Grouping := ⟨op.groupings, op.numRowsCol, op.filterF⟩
          .ok { acc with groups := groupsPut acc.groups key op }
      | .ok (.other cls) => .error (.unknownOperatorType
          ("Operator " ++ cls ++ " is neither Scan nor Grouping operator.")))
    ⟨none, [], [], []⟩

/-- `scanning_result` resolution: using it before any scan query ran is the
Python `NameError` on the unbound local. -/
def getScanRow : Option Row → Except PyErr Row
  | some r => .ok r
  | none => .error (.nameError "scanning_result")

/-- `Grouping.extract_num_rows(scanning_result)`. -/
def extractNumRows (scanRes : Option Row) (g : Grouping) : Except PyErr Int := do
  let row ← getScanRow scanRes
  pyIntOf (← rowGet row g.numRowsCol)

/-- `SQLEngine.compute_metrics` (lines 75-167).  The scan phase branches on
`no_sharing`: the shared pass unions every scan operator's aggregations
into the grouping count aggregations and issues one query; the no-sharing
branch rebinds `aggregations` to each operator's own fragments — the
accumulated grouping counts are discarded — and binds `scanning_result`
only inside its loop.  Either way the grouping passes then read each
bucket's `num_rows` alias out of `scanning_result`, materialize the
frequencies table, run the bucket's aggregations over it, and dispatch
`extract_metric`; the shared frequency state is re-keyed to each operator's
property identifier before being registered. -/
def computeMetrics (pctx : PyCtx) (ectx : EngineCtx) (rctx : RepoCtx)
    (properties : List Property) : Except PyErr ComputeResult := do
  let plan ← planProperties pctx properties
  let (metrics, states) :=
    match plan.schemaProp with
    | none => (plan.metrics, ([] : List State))
    | some sp =>
        (plan.metrics.put sp
          (metricFromValue (.schemaMap ectx.schema) sp.name sp.inst sp.entity),
         [State.schemaState sp.propertyIdentifier ectx.schema])
  let aggs0 := plan.groups.foldl (fun l g => setAdd l g.1.numRowsAgg) []
  let (scanRes, metrics, queries, states) ←
    if ectx.noSharing then
      plan.scans.foldlM
        (fun (acc : Option Row × MetricMap × List String × List State) op => do
          let (_, metrics, queries, states) := acc
          if op.aggs.length > 0 then do
            let q := "SELECT " ++ joinComma op.aggs ++ " FROM " ++ ectx.table
            let row := ectx.exec q
            let state ← op.extractState row
            let metric ← op.getMetric state
            pure (some row, metrics.put op.prop metric, queries ++ [q], states ++ [state])
          else pure acc)
        (none, metrics, [], states)
    else do
      let aggsAll := plan.scans.foldl (fun l op => setAddAll l op.aggs) aggs0
      let (scanRes, queries) :=
        if aggsAll.length > 0 then
          let q := "SELECT " ++ joinComma aggsAll ++ " FROM " ++ ectx.table
          (some (ectx.exec q), [q])
        else (none, ([] : List String))
      plan.scans.foldlM
        (fun (acc : Option Row × MetricMap × List String × List State) op => do
          let (scanRes, metrics, queries, states) := acc
          let row ← getScanRow scanRes
          let state ← op.extractState row
          let metric ← op.getMetric state
          pure (scanRes, metrics.put op.prop metric, queries, states ++ [state]))
        (scanRes, metrics, queries, states)
  let (metrics, queries, states) ← plan.groups.foldlM
    (fun (acc : MetricMap × List String × List State) gops => do
      let (metrics, queries, states) := acc
      let (g, ops) := gops
      let numRows ← extractNumRows scanRes g
      let cols := g.groupingCols
      let fq := match g.filterF with
        | none => "SELECT " ++ joinComma (cols ++ ["COUNT(*) as count"]) ++ " FROM "
            ++ ectx.table ++ " GROUP BY " ++ joinComma cols
        | some f => "SELECT " ++ joinComma (cols ++ ["COUNT(*) as count"]) ++ " FROM "
            ++ ectx.table ++ " WHERE " ++ f ++ " GROUP BY " ++ joinComma cols
      let freqTable := rctx.freqTableName
        (pctx.groupingHash (g.groupingCols, g.numRowsCol, g.filterF))
      let storeQs := ["DROP TABLE IF EXISTS " ++ freqTable,
        "CREATE " ++ (if rctx.isLocal then "" else "TEMP ") ++ "TABLE " ++ freqTable
          ++ " AS " ++ fq]
      let fetchQs := if rctx.isLocal then ([] : List String)
        else ["SELECT * FROM " ++ freqTable]
      let aggs := ops.foldl (fun l op => setAddAll l op.aggs) []
      let gq := "SELECT " ++ joinComma aggs ++ " FROM " ++ freqTable
      let row := ectx.exec gq
      let (metrics, states) ← ops.foldlM
        (fun (acc2 : MetricMap × List State) op => do
          let metric ← op.extractMetric row numRows
          pure (acc2.1.put op.prop metric,
            acc2.2 ++ [State.frequenciesAndNumRows op.prop.propertyIdentifier
              freqTable cols numRows]))
        (metrics, states)
      pure (metrics, queries ++ storeQs ++ fetchQs ++ [gq], states))
    (metrics, queries, states)
  pure ⟨metrics, queries, states⟩

/-! ## Precondition evaluation and the analysis runner
(`SQLEngine.evaluate_preconditions`, `utils/analysis_runner.py`) -/

def numericTypes : List String :=
  ["NUMERIC", "TINYINT", "SMALLINT", "INTEGER", "BIGINT", "HUGEINT", "FLOAT",
   "DOUBLE", "REAL", "DECIMAL"]

def stringTypes : List String := ["VARCHAR", "NVARCHAR", "CLOB", "TEXT"]

/-- `self.schema[cond.column]`: a missing column raises `KeyError`. -/
def schemaLookup (schema : List (String × String)) (c : String) :
    Except PyErr String :=
  match schema.lookup c with
  | some t => .ok t
  | none => .error (.keyError c)

/-- One `if/elif` arm of `SQLEngine.evaluate_preconditions`.  The
`', '.join(...)` over the type sets is rendered in the sets' literal
insertion order (CPython set iteration order is process-dependent; both
code paths that build this message run in the same process and agree). -/
def checkPrecondition (schema : List (String × String)) :
    Precondition → Except PyErr Unit
  | .hasColumn c =>
      if (schema.lookup c).isNone then
        .error (.preconditionNotMet ("Input data does not include column " ++ c))
      else .ok ()
  | .isNumeric c => do
      let t ← schemaLookup schema c
      if numericTypes.contains t then .ok ()
      else .error (.preconditionNotMet ("Expected type of column " ++ c
        ++ " to be one of " ++ joinComma numericTypes ++ ", but found " ++ t
        ++ " instead!"))
  | .isString c => do
      let t ← schemaLookup schema c
      if stringTypes.contains t then .ok ()
      else .error (.preconditionNotMet ("Expected type of column " ++ c
        ++ " to be one of " ++ joinComma stringTypes ++ ", but found " ++ t
        ++ " instead!"))
  | .atLeastOne cols =>
      if cols.length < 1 then
        .error (.preconditionNotMet "At least one column needs to be specified!")
      else .ok ()

def evaluatePreconditions (schema : List (String × String))
    (conds : List Precondition) : Except PyErr Unit :=
  conds.foldlM (fun _ c => checkPrecondition schema c) ()

/-- `find_first_failing`: run the engine's precondition evaluation and
capture any raised exception. -/
def findFirstFailing (schema : List (String × String))
    (conds : List Precondition) : Option PyErr :=
  match evaluatePreconditions schema conds with
  | .ok _ => none
  | .error e => some e

/-- `do_analysis_run` (`utils/analysis_runner.py` lines 81-158).  It
partitions the analyzers by precondition outcome and builds the
precondition-failure metric map, but then hands the FULL `analyzers` list —
not `passed_analyzers` — to `engine.compute_metrics`, and finally merges
the failure metrics over the computed map (`metrics + precondition_failures`,
where the right operand's entries win). -/
def doAnalysisRun (pctx : PyCtx) (ectx : EngineCtx) (rctx : RepoCtx)
    (analyzers : List Property) : Except PyErr (MetricMap × List String) :=
  if analyzers.isEmpty then .ok ([], [])
  else do
    let passed := analyzers.filter fun a =>
      (findFirstFailing ectx.schema a.preconditions).isNone
    let failed := analyzers.filter fun a =>
      !(passed.any fun b => dictKeyMatch b a)
    let failures ← failed.foldlM (fun (m : MetricMap) a =>
        match findFirstFailing ectx.schema a.preconditions with
        | some e => pure (m.put a (metricFromFailure e a))
        | none => .error (.assertionError
            "At least one exception should be found in a failing"))
      ([] : MetricMap)
    let res ← computeMetrics pctx ectx rctx analyzers
    pure (res.metrics.merge failures, res.queries)

/-! ## C2: aggregation sharing vs `no_sharing` -/

/-- `Uniqueness(["att1"])`. -/
def pUniqAtt1 : Property := ⟨.uniqueness ["att1"], none⟩

/-- DuckDB evaluating the issued queries on the dataset
`att1 = ["A", "B", "B"]`, answered by alias exactly as the operators read
result rows: the scan pass count `COUNT(*) as count` is 3, and over the
frequencies table (groups `A ↦ 1`, `B ↦ 2`) the uniqueness aggregation
`SUM(CASE WHEN count = 1 THEN 1 ELSE 0 END) as unique_count` is 1. -/
def execUniqAtt1 : String → Row := fun _query colAlias =>
  if colAlias = "count" then some (.num 3)
  else if colAlias = "unique_count" then some (.num 1)
  else none

def ectxShare : EngineCtx := ⟨"data", [("att1", "VARCHAR")], execUniqAtt1, false⟩

def ectxNoShare : EngineCtx := ⟨"data", [("att1", "VARCHAR")], execUniqAtt1, true⟩

def rctx0 : RepoCtx := ⟨fun n => "dq_state_freq_" ++ toString n, true⟩

/-- C2.  The claim — the Property→Metric map with sharing enabled equals the
map with `no_sharing=true`, including for property sets with grouping
operators or no scan operators — fails: for the single grouping property
`Uniqueness(["att1"])` on a 3-row dataset, the shared path returns the map
with metric `1/3`, while the no-sharing path raises `NameError`: its loop
rebinds `aggregations` per scan operator, so with no scan operators the
grouping-count query is never issued and `scanning_result` is unbound when
`extract_num_rows` reads it (`sql_engine.py` lines 116-124 and 140). -/
theorem sharing_vs_noSharing_diverge :
    (computeMetrics pyCtx0 ectxShare rctx0 [pUniqAtt1]).toOption.map
        (fun r => MetricMap.get r.metrics pUniqAtt1)
      = some (some ⟨.MULTICOLUMN, "Uniqueness", "att1",
          .success (.double (1 / 3)), false⟩)
    ∧ computeMetrics pyCtx0 ectxNoShare rctx0 [pUniqAtt1]
      = .error (.nameError "scanning_result") :=
  ⟨by with_unfolding_all rfl, by with_unfolding_all rfl⟩

/-! ## C3: precondition containment -/

/-- `MinLength("c")`. -/
def pMinLenC : Property := ⟨.minLength "c", none⟩

/-- Engine over a table whose column `c` has SQL type `INTEGER` (so the
`IsString` precondition of `MinLength("c")` fails).  The executor models
DuckDB answering every requested alias of the issued single-row scan query
with a numeric value (its exact value is irrelevant here). -/
def ectxMinLen : EngineCtx := ⟨"data", [("c", "INTEGER")], fun _ _ => some (.num 1), false⟩

/-- The `IsString` failure message for column `c` of type `INTEGER`. -/
def isStringFailMsgC : String :=
  "Expected type of column c to be one of VARCHAR, NVARCHAR, CLOB, TEXT, but found INTEGER instead!"

/-- The aggregation fragment `MinLengthOperator` contributes for
`MinLength("c")`. -/
def minLenFragC : String :=
  "min(length(c)) as min_len" ++ toString (Property.propertyIdentifier ⟨.minLength "c", none⟩)

/-- Does `needle` occur as a contiguous run inside the second list? -/
def listContainsSub (needle : List Char) : List Char → Bool
  | [] => needle.isEmpty
  | x :: xs => needle.isPrefixOf (x :: xs) || listContainsSub needle xs

/-- C3.  First conjunct (claimed, holds): the run's final metric for
`MinLength("c")` on a numeric column is the precondition `Failure` carrying
the failing precondition's message.  Second conjunct (contradicting the
claim): the fragment `min(length(c)) as min_len…` IS emitted in the SQL the
planner issues — `do_analysis_run` passes the full analyzer list to
`compute_metrics`, its computed `passed_analyzers` being dead
(`analysis_runner.py` line 140), so failed properties are never removed
from the plan. -/
theorem precondition_failure_metric_but_fragment_emitted :
    (doAnalysisRun pyCtx0 ectxMinLen rctx0 [pMinLenC]).toOption.map
        (fun r => MetricMap.get r.1 pMinLenC)
      = some (some ⟨.COLUMN, "MinLength", "c",
          .failure (.preconditionNotMet isStringFailMsgC), false⟩)
    ∧ (doAnalysisRun pyCtx0 ectxMinLen rctx0 [pMinLenC]).toOption.map
        (fun r => r.2.any fun q => listContainsSub minLenFragC.data q.data)
      = some true :=
  ⟨by with_unfolding_all rfl, by with_unfolding_all rfl⟩

/-! ## Checks and constraints (`checks.py`, `constraints.py`) -/

inductive ConstraintStatus where
  | success
  | failure
  deriving DecidableEq, Repr

/-- A constraint: an `AnalysisBasedConstraint` holding its analyzer property
and the user assertion callable (which may raise — modelled as `Except`),
or a `ConstraintDecorator` (e.g. `NamedConstraint`) wrapping another
constraint. -/
inductive Constraint where
  | analysisBased (analyzer : Property)
      (assertion : MetricVal → Except String Bool) (hint : Option String)
  | decorator (inner : Constraint) (name : String)

/-- The status of `Constraint.evaluate` against a Property→Metric mapping
(the dict lookup `analysis_result.get(self.analyzer)` is abstracted as a
function): missing metric → FAILURE ("Missing Analysis"); a `Failure`
metric value propagates as FAILURE; an assertion raise or a `False` result
is FAILURE (`constraints.py` lines 106-151).  A decorator evaluates its
inner constraint and re-tags the result, keeping the status
(`replace(..., constraint=self)`). -/
def evalConstraint (amap : Property → Option Metric) : Constraint → ConstraintStatus
  | .decorator inner _ => evalConstraint amap inner
  | .analysisBased analyzer assertion _ =>
      match amap analyzer with
      | none => .failure
      | some m =>
          match m.value with
          | .failure _ => .failure
          | .success v =>
              match assertion v with
              | .error _ => .failure
              | .ok true => .success
              | .ok false => .failure

inductive CheckLevel where
  | warning
  | exception
  deriving DecidableEq, Repr

inductive CheckStatus where
  | success
  | warning
  | error
  deriving DecidableEq, Repr

/-- The `IntEnum` values `SUCCESS = 0 < WARNING = 1 < ERROR = 2`. -/
def CheckStatus.toNat : CheckStatus → Nat
  | .success => 0
  | .warning => 1
  | .error => 2

/-- `Check`: level, description, constraint tuple. -/
structure Check where
  level : CheckLevel
  description : String
  constraints : List Constraint

/-- `Check.add_constraint`: a new `Check` with the constraint appended. -/
def Check.addConstraint (c : Check) (k : Constraint) : Check :=
  ⟨c.level, c.description, c.constraints ++ [k]⟩

/-- `Check.evaluate` (`checks.py` lines 887-910), reduced to the status it
assigns: evaluate every constraint, and if any failed, report `ERROR` for
an exception-level check and `WARNING` for a warning-level one, else
`SUCCESS`. -/
def Check.evaluateStatus (c : Check) (amap : Property → Option Metric) : CheckStatus :=
  let results := c.constraints.map (evalConstraint amap)
  let anyFailures := results.any fun r => r == ConstraintStatus.failure
  if anyFailures && (c.level == CheckLevel.exception) then .error
  else if anyFailures && (c.level == CheckLevel.warning) then .warning
  else .success

/-- C9.  Adding a constraint never improves a check's status: for every
check, constraint and Property→Metric map, the status of
`c.add_constraint(k).evaluate` is ≥ the status of `c.evaluate` under
`Success < Warning < Error`. -/
theorem check_addConstraint_monotone (c : Check) (k : Constraint)
    (amap : Property → Option Metric) :
    (c.evaluateStatus amap).toNat ≤ ((c.addConstraint k).evaluateStatus amap).toNat := by
  unfold Check.evaluateStatus Check.addConstraint
  simp only [List.map_append, List.map_cons, List.map_nil, List.any_append]
  cases ha : (c.constraints.map (evalConstraint amap)).any
      (fun r => r == ConstraintStatus.failure) with
  | true =>
      cases c.level <;> simp [CheckStatus.toNat]
  | false =>
      cases hb : (List.any [evalConstraint amap k]
          fun r => r == ConstraintStatus.failure) with
      | true => cases c.level <;> simp [CheckStatus.toNat]
      | false => simp [CheckStatus.toNat]

end DuckDQ
